import Mathlib

/-!
Verification of the resilient data-acquisition and metrics layer of the
stock-research application. Provider numbers are modelled as exact
rationals, nullable values as Option, and a thrown JavaScript error as an
Option String result (some message = throw, none = normal return).
-/

namespace StockResearch

/-- Raw provider payload restricted to the fields inspected by
checkForError in src/lib/alphaVantage.ts (the AlphaVantageError shape of
src/lib/types.ts); none models an absent key. -/
structure Payload where
  errorMessage : Option String := none
  note : Option String := none
  information : Option String := none
deriving DecidableEq

/-- JavaScript truthiness of an optional string: false exactly for an
absent field and for the empty string. -/
def truthyStr : Option String → Bool
  | some s => s != ""
  | none => false

/-- The fixed message thrown for both advisory fields in
src/lib/alphaVantage.ts lines 50 and 54. -/
def rateLimitMessage : String :=
  "API call frequency limit reached. Please try again later."

/-- checkForError from src/lib/alphaVantage.ts lines 43 to 56, as the
thrown error message (none when the function returns normally). -/
def checkForError (data : Payload) : Option String :=
  if truthyStr data.errorMessage then data.errorMessage
  else if truthyStr data.note then some rateLimitMessage
  else if truthyStr data.information then some rateLimitMessage
  else none

/-- Four-way classification result described by the specification. -/
inductive ClassificationResult where
  | hardError (message : String)
  | rateLimited (advisory : String)
  | ambiguousAdvisory (advisory : String)
  | success (payload : Payload)
deriving DecidableEq

/-- Lowercasing of a string, character by character. -/
def lowerStr (s : String) : String := String.mk (s.toList.map Char.toLower)

/-- Substring containment test on the character lists. -/
def containsSub (hay pat : String) : Bool :=
  hay.toList.tails.any (fun t => pat.toList.isPrefixOf t)

/-- The quota keywords of the specification. -/
def quotaKeywords : List String := ["frequency", "call limit", "api call"]

/-- The advisory text of a payload: the Note field when present, else the
Information field when present (the two field names checked in order). -/
def advisoryText (p : Payload) : Option String :=
  if truthyStr p.note then p.note
  else if truthyStr p.information then p.information
  else none

/-- Modelled from the spec: the four-way ResponseClassifier of section 4.3
(error-message field, else case-insensitive quota-keyword match on the
advisory text, else AmbiguousAdvisory, else Success). The repository code
has no such classifier; this definition restates the claim wording for
comparison with checkForError. -/
def specClassify (p : Payload) : ClassificationResult :=
  if truthyStr p.errorMessage then .hardError (p.errorMessage.getD "")
  else
    match advisoryText p with
    | some a =>
        if quotaKeywords.any (fun k => containsSub (lowerStr a) k) then .rateLimited a
        else .ambiguousAdvisory a
    | none => .success p

/-- Classification by field presence alone, as the amended claim C1 states
it: an explicit non-empty error-message field gives HardError with that
message; otherwise any present advisory field gives RateLimited whatever
its text; otherwise Success. No payload is classified AmbiguousAdvisory. -/
def presenceClassify (p : Payload) : ClassificationResult :=
  if truthyStr p.errorMessage then .hardError (p.errorMessage.getD "")
  else
    match advisoryText p with
    | some a => .rateLimited a
    | none => .success p

/-- Thrown message corresponding to a classification: the error message
for HardError, the fixed rate-limit message for any advisory-driven
outcome, none for Success. -/
def thrownOf : ClassificationResult → Option String
  | .hardError m => some m
  | .rateLimited _ => some rateLimitMessage
  | .ambiguousAdvisory _ => some rateLimitMessage
  | .success _ => none

/-- Whether a classification is the AmbiguousAdvisory variant. -/
def isAmbiguous : ClassificationResult → Bool
  | .ambiguousAdvisory _ => true
  | _ => false

/-- validateTicker from src/lib/alphaVantage.ts: after uppercasing, the
symbol must be one to five Latin capital letters. -/
def validateTicker (ticker : String) : Bool :=
  let up := ticker.toList.map Char.toUpper
  decide (1 ≤ up.length) && decide (up.length ≤ 5) &&
    up.all (fun c => decide ('A' ≤ c) && decide (c ≤ 'Z'))

/-- Outcome of one resource getter of src/lib/alphaVantage.ts. -/
inductive FetchResult where
  | configError
  | invalidTicker (ticker : String)
  | thrown (message : String)
  | ok (payload : Payload)
deriving DecidableEq

/-- Control flow shared by the resource getters of src/lib/alphaVantage.ts
(getCompanyOverview and the other get functions): the single configured
credential API_KEY (line 18) is checked, the ticker validated, one request
issued, and checkForError applied to its payload; a thrown error ends the
call. The transport and JSON stages are abstracted into the respond
function, giving the payload the provider returns for the credential used;
resource-specific normalization happens after the ok outcome. -/
def fetchResource (apiKey : Option String) (ticker : String)
    (respond : String → Payload) : FetchResult :=
  match apiKey with
  | none => .configError
  | some key =>
      if !validateTicker ticker then .invalidTicker ticker
      else
        match checkForError (respond key) with
        | some msg => .thrown msg
        | none => .ok (respond key)

/-- Value of a digit list, most significant first. -/
def digitsToNat (l : List Char) : ℕ :=
  l.foldl (fun acc c => 10 * acc + (c.toNat - 48)) 0

/-- Model of the JavaScript parseFloat builtin on the finite decimal
grammar: optional leading whitespace, optional sign, integer digits,
optional fraction, optional exponent, reading the longest valid prefix and
ignoring trailing text; none models NaN (no digit could be read). The
nonfinite literals such as Infinity lie outside the model. -/
def jsParseFloat (s : String) : Option ℚ :=
  let l := s.toList.dropWhile (fun c => c = ' ' ∨ c = '\t' ∨ c = '\n' ∨ c = '\r')
  let signAndRest : ℚ × List Char :=
    match l with
    | '-' :: rest => (-1, rest)
    | '+' :: rest => (1, rest)
    | _ => (1, l)
  let sign := signAndRest.1
  let l1 := signAndRest.2
  let intDigits := l1.takeWhile Char.isDigit
  let l2 := l1.drop intDigits.length
  let fracAndRest : List Char × List Char :=
    match l2 with
    | '.' :: rest => (rest.takeWhile Char.isDigit, rest.drop (rest.takeWhile Char.isDigit).length)
    | _ => ([], l2)
  let fracDigits := fracAndRest.1
  let l3 := fracAndRest.2
  if intDigits.length = 0 ∧ fracDigits.length = 0 then none
  else
    let mantissa : ℚ :=
      sign * ((digitsToNat intDigits : ℚ) + (digitsToNat fracDigits : ℚ) / (10 : ℚ) ^ fracDigits.length)
    let expDigits : ℤ → List Char → ℤ := fun sgn ds =>
      let d := ds.takeWhile Char.isDigit
      if d.length = 0 then 0 else sgn * (digitsToNat d : ℤ)
    let expVal : ℤ :=
      match l3 with
      | c :: rest =>
          if c = 'e' ∨ c = 'E' then
            match rest with
            | '-' :: ds => expDigits (-1) ds
            | '+' :: ds => expDigits 1 ds
            | ds => expDigits 1 ds
          else 0
      | [] => 0
    some (mantissa * (10 : ℚ) ^ expVal)

/-- parseValue from src/lib/transformers.ts lines 13 to 17: absent or
falsy (empty) string, the None sentinel, and an unparsable string all give
null; otherwise the parsed number. -/
def parseValue (value : Option String) : Option ℚ :=
  match value with
  | none => none
  | some v =>
      if v = "" ∨ v = "None" then none
      else
        match jsParseFloat v with
        | none => none
        | some q => some q

/-- parseNumber from src/lib/alphaVantage.ts lines 34 to 38: identical
rules to parseValue, the null input joining undefined in the none case. -/
def parseNumber (value : Option String) : Option ℚ :=
  match value with
  | none => none
  | some v =>
      if v = "" ∨ v = "None" then none
      else
        match jsParseFloat v with
        | none => none
        | some q => some q

/-- JavaScript truthiness of a nullable number: false exactly for null
and for zero (NaN lies outside the rational model). -/
def truthyNum : Option ℚ → Bool
  | some v => v != 0
  | none => false

/-- The JavaScript expression x or-else d on a nullable number and a
plain default: the default replaces null and zero. -/
def orDefault (x : Option ℚ) (d : ℚ) : ℚ :=
  match x with
  | some v => if v = 0 then d else v
  | none => d

/-- The JavaScript expression x or-else y on two nullable numbers. -/
def orElseNum (x y : Option ℚ) : Option ℚ :=
  if truthyNum x then x else y

/-- A fiscal-period report row. The open string-keyed mapping of
types.ts (AnnualReport and QuarterlyReport share this shape) is restricted
to the line items the verified functions read; a raw provider value is an
optional string, none modelling an absent key. -/
structure Report where
  fiscalDateEnding : String
  reportedCurrency : String := "USD"
  totalRevenue : Option String := none
  grossProfit : Option String := none
  operatingIncome : Option String := none
  netIncome : Option String := none
  incomeBeforeTax : Option String := none
  incomeTaxExpense : Option String := none
  eps : Option String := none
  totalAssets : Option String := none
  totalCurrentAssets : Option String := none
  totalCurrentLiabilities : Option String := none
  operatingCashflow : Option String := none
  capitalExpenditures : Option String := none
deriving DecidableEq

/-- IncomeStatement from src/lib/types.ts. -/
structure IncomeStatement where
  symbol : String
  annualReports : List Report
  quarterlyReports : List Report
deriving DecidableEq

/-- BalanceSheet from src/lib/types.ts. -/
structure BalanceSheet where
  symbol : String
  annualReports : List Report
  quarterlyReports : List Report
deriving DecidableEq

/-- CashFlow from src/lib/types.ts. -/
structure CashFlow where
  symbol : String
  annualReports : List Report
  quarterlyReports : List Report
deriving DecidableEq

/-- The period selector of the calculation functions. -/
inductive Period where
  | annual
  | quarterly
deriving DecidableEq

/-- Annual or quarterly reports of an income statement. -/
def selectReports (s : IncomeStatement) : Period → List Report
  | .annual => s.annualReports
  | .quarterly => s.quarterlyReports

/-- Annual or quarterly reports of a balance sheet. -/
def selectBalanceReports (s : BalanceSheet) : Period → List Report
  | .annual => s.annualReports
  | .quarterly => s.quarterlyReports

/-- Annual or quarterly reports of a cash-flow statement. -/
def selectCashReports (s : CashFlow) : Period → List Report
  | .annual => s.annualReports
  | .quarterly => s.quarterlyReports

/-- Model of new Date(s).getTime() as a sort key for the provider date
strings of shape YYYY-MM-DD: the digits read as one number, an encoding
that preserves the chronological order the comparator consumes. -/
def dateKey (s : String) : ℕ :=
  digitsToNat (s.toList.filter Char.isDigit)

/-- Stable insertion into a list sorted descending by key: the new
element goes after every element of at least its key. -/
def insertDescBy {α : Type} (key : α → ℕ) (r : α) : List α → List α
  | [] => [r]
  | x :: xs => if key r ≤ key x then x :: insertDescBy key r xs else r :: x :: xs

/-- Stable insertion into a list sorted ascending by key. -/
def insertAscBy {α : Type} (key : α → ℕ) (r : α) : List α → List α
  | [] => [r]
  | x :: xs => if key x ≤ key r then x :: insertAscBy key r xs else r :: x :: xs

/-- Stable sort, largest key first: the stable JavaScript comparator sort
with comparator (a, b) => keyB - keyA, realized as insertion sort. -/
def sortDescBy {α : Type} (key : α → ℕ) (l : List α) : List α :=
  l.foldl (fun acc r => insertDescBy key r acc) []

/-- Stable sort, smallest key first: the stable JavaScript comparator
sort with comparator (a, b) => keyA - keyB, realized as insertion sort. -/
def sortAscBy {α : Type} (key : α → ℕ) (l : List α) : List α :=
  l.foldl (fun acc r => insertAscBy key r acc) []

/-- Reports sorted newest first by fiscal date, as in
calculateGrowthMetricsFromStatements and sortReportsByDate. -/
def sortDesc (reports : List Report) : List Report :=
  sortDescBy (fun r => dateKey r.fiscalDateEnding) reports

/-- Reports sorted oldest first by fiscal date, as in
buildTrendsSeriesFromStatements and calculateFreeCashFlow. -/
def sortAsc (reports : List Report) : List Report :=
  sortAscBy (fun r => dateKey r.fiscalDateEnding) reports

/-- calculateYoYGrowth from src/lib/calculations.ts lines 16 to 24. -/
def calculateYoYGrowth (current previous : Option ℚ) : Option ℚ :=
  match current, previous with
  | some c, some p => if p = 0 then none else some ((c - p) / p * 100)
  | _, _ => none

/-- calculateMargin from src/lib/calculations.ts lines 29 to 37. -/
def calculateMargin (numerator revenue : Option ℚ) : Option ℚ :=
  match numerator, revenue with
  | some n, some r => if r = 0 then none else some (n / r * 100)
  | _, _ => none

/-- Largest m with m to the n-th power at most k, for n at least one. -/
def natRoot (n k : ℕ) : ℕ :=
  ((List.range (k + 1)).filter (fun m => m ^ n ≤ k)).foldl Nat.max 0

/-- Integer power of a rational; none models the infinite result of a
negative power of zero. -/
def intPowQ (b : ℚ) (n : ℤ) : Option ℚ :=
  if b = 0 ∧ n < 0 then none else some (b ^ n)

/-- Exact n-th root of a rational when one exists, for positive n. -/
def ratRoot (q : ℚ) (n : ℕ) : Option ℚ :=
  if q.num < 0 then none
  else
    let rn := natRoot n q.num.toNat
    let rd := natRoot n q.den
    if rn ^ n = q.num.toNat ∧ rd ^ n = q.den then some ((rn : ℚ) / (rd : ℚ)) else none

/-- Model of the Math.pow builtin over exact rationals: the identities for
exponent zero, base one, integer exponents and exact roots, the NaN result
for a negative base with fractional exponent, and the zero-base rules.
none models NaN or an infinity, and also an irrational result, which falls
outside the exact model and which no claim evaluates. -/
def jsPow (b e : ℚ) : Option ℚ :=
  if e = 0 then some 1
  else if b = 1 then some 1
  else if e.den = 1 then intPowQ b e.num
  else if b < 0 then none
  else if b = 0 then (if 0 < e then some 0 else none)
  else
    match intPowQ b e.num with
    | none => none
    | some bp => ratRoot bp e.den

/-- calculateCAGR from src/lib/calculations.ts lines 42 to 52; the
isNaN and isFinite filter of line 51 maps the none result of the power
model to null. -/
def calculateCAGR (start endVal : Option ℚ) (years : ℚ) : Option ℚ :=
  match start, endVal with
  | some s, some e =>
      if s = 0 ∨ years = 0 then none
      else
        match jsPow (e / s) (1 / years) with
        | none => none
        | some p => some ((p - 1) * 100)
  | _, _ => none

/-- GrowthMetrics from src/lib/types.ts. -/
structure GrowthMetrics where
  revenueYoY : Option ℚ
  netIncomeYoY : Option ℚ
  epsYoY : Option ℚ
  revenueCAGR3Y : Option ℚ
  revenueCAGR5Y : Option ℚ
deriving DecidableEq

/-- calculateGrowthMetricsFromStatements from src/lib/calculations.ts
lines 84 to 127. The source reads sortedReports at indices 0, 1, 3 and 5
(index 0 exists in the non-empty branch; the others are guarded by the
JavaScript ternary on undefined), here uniformly through the optional
index with bind. -/
def calculateGrowthMetricsFromStatements (incomeStatement : IncomeStatement)
    (period : Period) : GrowthMetrics :=
  let reports := selectReports incomeStatement period
  if reports.isEmpty then
    { revenueYoY := none, netIncomeYoY := none, epsYoY := none,
      revenueCAGR3Y := none, revenueCAGR5Y := none }
  else
    let sorted := sortDesc reports
    let latestRevenue := (sorted[0]?).bind (fun r => parseValue r.totalRevenue)
    let previousRevenue := (sorted[1]?).bind (fun r => parseValue r.totalRevenue)
    let threeYearsAgoRevenue := (sorted[3]?).bind (fun r => parseValue r.totalRevenue)
    let fiveYearsAgoRevenue := (sorted[5]?).bind (fun r => parseValue r.totalRevenue)
    let latestNetIncome := (sorted[0]?).bind (fun r => parseValue r.netIncome)
    let previousNetIncome := (sorted[1]?).bind (fun r => parseValue r.netIncome)
    let latestEPS := (sorted[0]?).bind (fun r => parseValue r.eps)
    let previousEPS := (sorted[1]?).bind (fun r => parseValue r.eps)
    { revenueYoY := calculateYoYGrowth latestRevenue previousRevenue,
      netIncomeYoY := calculateYoYGrowth latestNetIncome previousNetIncome,
      epsYoY := calculateYoYGrowth latestEPS previousEPS,
      revenueCAGR3Y :=
        if truthyNum threeYearsAgoRevenue then
          calculateCAGR threeYearsAgoRevenue latestRevenue 3
        else none,
      revenueCAGR5Y :=
        if truthyNum fiveYearsAgoRevenue then
          calculateCAGR fiveYearsAgoRevenue latestRevenue 5
        else none }

/-- ProfitabilityMetrics from src/lib/types.ts. -/
structure ProfitabilityMetrics where
  grossMargin : Option ℚ
  operatingMargin : Option ℚ
  netMargin : Option ℚ
  roe : Option ℚ
  roa : Option ℚ
deriving DecidableEq

/-- calculateProfitabilityMetrics from src/lib/calculations.ts lines 132
to 161; the latest report is reports at index 0, unsorted. -/
def calculateProfitabilityMetrics (incomeStatement : IncomeStatement)
    (period : Period) : ProfitabilityMetrics :=
  let reports := selectReports incomeStatement period
  match reports[0]? with
  | none =>
      { grossMargin := none, operatingMargin := none, netMargin := none,
        roe := none, roa := none }
  | some latest =>
      let revenue := parseValue latest.totalRevenue
      let grossProfit := parseValue latest.grossProfit
      let operatingIncome := parseValue latest.operatingIncome
      let netIncome := parseValue latest.netIncome
      { grossMargin := calculateMargin grossProfit revenue,
        operatingMargin := calculateMargin operatingIncome revenue,
        netMargin := calculateMargin netIncome revenue,
        roe := none,
        roa := none }

/-- EfficiencyMetrics from src/lib/types.ts. -/
structure EfficiencyMetrics where
  assetTurnover : Option ℚ
  workingCapitalEfficiency : Option ℚ
deriving DecidableEq

/-- calculateEfficiencyMetrics from src/lib/calculations.ts lines 166 to
197; the JavaScript truthiness of the guards is explicit: the conjunction
totalAssets and totalAssets greater than zero and revenue, the working
capital null when either current figure is null or zero, and the final
guard on a truthy working capital and revenue. -/
def calculateEfficiencyMetrics (incomeStatement : IncomeStatement)
    (balanceSheet : BalanceSheet) (period : Period) : EfficiencyMetrics :=
  let incomeReports := selectReports incomeStatement period
  let balanceReports := selectBalanceReports balanceSheet period
  match incomeReports[0]?, balanceReports[0]? with
  | some latestIncome, some latestBalance =>
      let revenue := parseValue latestIncome.totalRevenue
      let totalAssets := parseValue latestBalance.totalAssets
      let currentAssets := parseValue latestBalance.totalCurrentAssets
      let currentLiabilities := parseValue latestBalance.totalCurrentLiabilities
      let assetTurnover : Option ℚ :=
        match totalAssets, revenue with
        | some ta, some r => if ta ≠ 0 ∧ 0 < ta ∧ r ≠ 0 then some (r / ta) else none
        | _, _ => none
      let workingCapital : Option ℚ :=
        match currentAssets, currentLiabilities with
        | some ca, some cl => if ca ≠ 0 ∧ cl ≠ 0 then some (ca - cl) else none
        | _, _ => none
      let workingCapitalEfficiency : Option ℚ :=
        match workingCapital, revenue with
        | some wc, some r => if wc ≠ 0 ∧ r ≠ 0 then some (r / wc) else none
        | _, _ => none
      { assetTurnover := assetTurnover,
        workingCapitalEfficiency := workingCapitalEfficiency }
  | _, _ => { assetTurnover := none, workingCapitalEfficiency := none }

/-- A dated series entry, the row shape produced by the series builders
of src/lib/calculations.ts. -/
structure DatedValue where
  date : String
  value : Option ℚ
deriving DecidableEq

/-- One output row of calculateFreeCashFlow (the mapping function of
src/lib/calculations.ts lines 229 to 240). -/
def fcfRow (report : Report) : DatedValue :=
  match parseValue report.operatingCashflow, parseValue report.capitalExpenditures with
  | none, _ => { date := report.fiscalDateEnding, value := none }
  | some ocf, none => { date := report.fiscalDateEnding, value := some ocf }
  | some ocf, some capex => { date := report.fiscalDateEnding, value := some (ocf - capex) }

/-- calculateFreeCashFlow from src/lib/calculations.ts lines 219 to 241:
ascending sort by fiscal date, then the per-row policy of fcfRow. -/
def calculateFreeCashFlow (cashFlow : CashFlow) (period : Period) : List DatedValue :=
  let reports := selectCashReports cashFlow period
  (sortAsc reports).map fcfRow

/-- calculateROE from src/lib/calculations.ts lines 246 to 254. -/
def calculateROE (netIncome shareholderEquity : Option ℚ) : Option ℚ :=
  match netIncome, shareholderEquity with
  | some n, some eq => if eq = 0 then none else some (n / eq * 100)
  | _, _ => none

/-- calculateROA from src/lib/calculations.ts lines 259 to 267. -/
def calculateROA (netIncome totalAssets : Option ℚ) : Option ℚ :=
  match netIncome, totalAssets with
  | some n, some ta => if ta = 0 then none else some (n / ta * 100)
  | _, _ => none

/-- CompanyOverview from src/lib/types.ts, the numeric fields already
parsed to nullable rationals by the normalizer. -/
structure CompanyOverview where
  symbol : String
  name : String
  description : String := ""
  sector : String := ""
  industry : String := ""
  marketCap : Option ℚ := none
  peRatio : Option ℚ := none
  priceToBook : Option ℚ := none
  priceToSales : Option ℚ := none
  dividendYield : Option ℚ := none
  sharesOutstanding : Option ℚ := none
  roe : Option ℚ := none
  roa : Option ℚ := none
  revenueTTM : Option ℚ := none
  grossProfitTTM : Option ℚ := none
  ebitda : Option ℚ := none
  evToSales : Option ℚ := none
  evToEbitda : Option ℚ := none
  forwardPE : Option ℚ := none
  trailingPE : Option ℚ := none
deriving DecidableEq

/-- getLatestIncomeStatementValue from src/lib/transformers.ts lines 96
to 106; the dynamic string-keyed field access of the source is modelled
as a field selector. -/
def getLatestIncomeStatementValue (incomeStatement : IncomeStatement)
    (field : Report → Option String) (period : Period) : Option ℚ :=
  match (selectReports incomeStatement period)[0]? with
  | none => none
  | some latest => parseValue (field latest)

/-- ForecastInputs from src/lib/types.ts. -/
structure ForecastInputs where
  revenueGrowth : ℚ
  grossMargin : ℚ
  operatingMargin : ℚ
  netMargin : ℚ
  taxRate : ℚ
  peMultiple : ℚ
  sharesOutstanding : ℚ
  baseRevenue : ℚ
deriving DecidableEq

/-- ForecastOutputs from src/lib/types.ts. -/
structure ForecastOutputs where
  projectedRevenue : ℚ
  projectedCOGS : ℚ
  projectedGrossProfit : ℚ
  projectedOperatingIncome : ℚ
  projectedNetIncome : ℚ
  projectedEPS : ℚ
  impliedPrice : ℚ
deriving DecidableEq

/-- getDefaultForecastInputs from src/lib/forecasting.ts lines 13 to 47;
the period argument is omitted at every call in the source, so annual
reports are read. -/
def getDefaultForecastInputs (incomeStatement : IncomeStatement)
    (overview : CompanyOverview) : ForecastInputs :=
  let latestRevenue :=
    orDefault (getLatestIncomeStatementValue incomeStatement (fun r => r.totalRevenue) .annual) 0
  let latestGrossProfit :=
    orDefault (getLatestIncomeStatementValue incomeStatement (fun r => r.grossProfit) .annual) 0
  let latestOperatingIncome :=
    orDefault (getLatestIncomeStatementValue incomeStatement (fun r => r.operatingIncome) .annual) 0
  let latestNetIncome :=
    orDefault (getLatestIncomeStatementValue incomeStatement (fun r => r.netIncome) .annual) 0
  let grossMargin := if 0 < latestRevenue then latestGrossProfit / latestRevenue * 100 else 0
  let operatingMargin := if 0 < latestRevenue then latestOperatingIncome / latestRevenue * 100 else 0
  let netMargin := if 0 < latestRevenue then latestNetIncome / latestRevenue * 100 else 0
  let incomeBeforeTax :=
    orDefault (getLatestIncomeStatementValue incomeStatement (fun r => r.incomeBeforeTax) .annual) 0
  let incomeTaxExpense :=
    orDefault (getLatestIncomeStatementValue incomeStatement (fun r => r.incomeTaxExpense) .annual) 0
  let taxRate := if 0 < incomeBeforeTax then incomeTaxExpense / incomeBeforeTax * 100 else 25
  let peMultiple := orDefault (orElseNum overview.peRatio overview.trailingPE) 20
  let sharesOutstanding := orDefault overview.sharesOutstanding 1000000000
  { revenueGrowth := 0,
    grossMargin := grossMargin,
    operatingMargin := operatingMargin,
    netMargin := netMargin,
    taxRate := taxRate,
    peMultiple := peMultiple,
    sharesOutstanding := sharesOutstanding,
    baseRevenue := latestRevenue }

/-- calculateEPS from src/lib/calculations.ts lines 71 to 79. -/
def calculateEPS (netIncome sharesOutstanding : Option ℚ) : Option ℚ :=
  match netIncome, sharesOutstanding with
  | some n, some s => if s = 0 then none else some (n / s)
  | _, _ => none

/-- runForecast from src/lib/forecasting.ts lines 52 to 87. -/
def runForecast (inputs : ForecastInputs) : ForecastOutputs :=
  let projectedRevenue := inputs.baseRevenue * (1 + inputs.revenueGrowth / 100)
  let projectedGrossProfit := projectedRevenue * inputs.grossMargin / 100
  let projectedCOGS := projectedRevenue - projectedGrossProfit
  let projectedOperatingIncome := projectedRevenue * inputs.operatingMargin / 100
  let projectedIncomeBeforeTax := projectedOperatingIncome
  let projectedIncomeTax := projectedIncomeBeforeTax * inputs.taxRate / 100
  let projectedNetIncome := projectedIncomeBeforeTax - projectedIncomeTax
  let projectedEPS :=
    orDefault (calculateEPS (some projectedNetIncome) (some inputs.sharesOutstanding)) 0
  let impliedPrice := projectedEPS * inputs.peMultiple
  { projectedRevenue := projectedRevenue,
    projectedCOGS := projectedCOGS,
    projectedGrossProfit := projectedGrossProfit,
    projectedOperatingIncome := projectedOperatingIncome,
    projectedNetIncome := projectedNetIncome,
    projectedEPS := projectedEPS,
    impliedPrice := impliedPrice }

/-- calculateUpside from src/lib/forecasting.ts lines 92 to 100. -/
def calculateUpside (impliedPrice : ℚ) (currentPrice : Option ℚ) : Option ℚ :=
  match currentPrice with
  | none => none
  | some c => if c = 0 then none else some ((impliedPrice - c) / c * 100)

/-! Concrete fixtures used by the claim theorems. -/

/-- Payload with a non-quota advisory text in the Information field. -/
def premiumPayload : Payload := { information := some "Premium endpoint" }

/-- Payload with a genuine quota advisory in the Note field. -/
def quotaPayload : Payload := { note := some "API call frequency is 5 calls per minute" }

/-- Provider behaviour for claim C2: tokens key1 and key2 draw a quota
advisory, token key3 draws a clean payload. -/
def respondPool : String → Payload := fun k =>
  if k = "key3" then {} else { note := some "call frequency exceeded" }

/-! Claim theorems. -/

/-- C1, counterexample. The claim says a payload whose advisory text does
not contain a quota substring is classified AmbiguousAdvisory and treated
as retryable rather than fatal. On the payload with Information text
Premium endpoint, the spec classifier indeed gives AmbiguousAdvisory, yet
checkForError throws exactly the same fixed rate-limit error it throws for
a genuine quota advisory: the code has no distinct retryable outcome for a
non-quota advisory. -/
theorem C1_counterexample :
    specClassify premiumPayload = .ambiguousAdvisory "Premium endpoint" ∧
    specClassify quotaPayload = .rateLimited "API call frequency is 5 calls per minute" ∧
    checkForError premiumPayload = some rateLimitMessage ∧
    checkForError premiumPayload = checkForError quotaPayload := by
  with_unfolding_all decide

/-- C1, amended. Classification is by field presence, not by substring:
a payload with a non-empty error-message field throws that message (hard
error); otherwise a payload with either advisory field present throws the
fixed rate-limit message whatever the advisory text says; otherwise no
error is thrown and the payload passes through unchanged. No payload is
ever classified AmbiguousAdvisory. -/
theorem C1_amended (p : Payload) :
    checkForError p = thrownOf (presenceClassify p) ∧
    isAmbiguous (presenceClassify p) = false := by
  obtain ⟨em, nt, inf⟩ := p
  cases em <;> cases nt <;> cases inf <;>
    simp [checkForError, presenceClassify, advisoryText, thrownOf, isAmbiguous, truthyStr] <;>
    split_ifs <;> simp_all [thrownOf, isAmbiguous]

/-- C2, counterexample. The claim describes rotation over an ordered
pool of three credentials, with the first rate-limited attempts skipped
and the token-3 success returned. The code holds a single credential
(API_KEY): with the first token rate-limited it returns the thrown
rate-limit error at once and never reaches the clean token-3 payload. -/
theorem C2_counterexample :
    fetchResource (some "key1") "IBM" respondPool = .thrown rateLimitMessage ∧
    checkForError (respondPool "key3") = none ∧
    fetchResource (some "key1") "IBM" respondPool ≠ .ok (respondPool "key3") := by
  with_unfolding_all decide

/-- C2, amended. The client makes exactly one attempt with its single
configured credential: the outcome depends only on the response for that
credential (no other token is ever consulted); any thrown classification,
rate-limited and hard errors alike, is returned immediately; a clean
response returns its payload; an absent credential is a configuration
error. There is no rotation and no aggregate AllKeysRateLimited or
AllKeysSkipped outcome. The hard-error conjunct of the original claim
holds as the special case of the immediate-throw clause. -/
theorem C2_amended (key ticker : String) (respond : String → Payload)
    (hv : validateTicker ticker = true) :
    (∀ respond2 : String → Payload, respond2 key = respond key →
        fetchResource (some key) ticker respond2 = fetchResource (some key) ticker respond) ∧
    (∀ m : String, checkForError (respond key) = some m →
        fetchResource (some key) ticker respond = .thrown m) ∧
    (checkForError (respond key) = none →
        fetchResource (some key) ticker respond = .ok (respond key)) ∧
    fetchResource none ticker respond = .configError := by
  refine ⟨?_, ?_, ?_, rfl⟩
  · intro respond2 h2
    simp [fetchResource, hv, h2]
  · intro m hm
    simp [fetchResource, hv, hm]
  · intro hn
    simp [fetchResource, hv, hn]

/-- C2, witness for the amended theorem at the concrete pool scenario. -/
theorem C2_amended_witness :
    fetchResource (some "key1") "IBM" respondPool = .thrown rateLimitMessage :=
  (C2_amended "key1" "IBM" respondPool (by with_unfolding_all decide)).2.1
    rateLimitMessage (by with_unfolding_all decide)

/-- C3. The numeric parser maps the absent value, the empty string and
the None sentinel to null; any string the float model cannot read at all
is null; any string the float model reads gives exactly that value; and
parseNumber of the provider client agrees with parseValue of the
transformers at every input. Both functions are total, so no input
raises. -/
theorem C3_parseValue :
    parseValue none = none ∧
    parseValue (some "") = none ∧
    parseValue (some "None") = none ∧
    (∀ s : String, jsParseFloat s = none → parseValue (some s) = none) ∧
    (∀ (s : String) (q : ℚ), jsParseFloat s = some q → parseValue (some s) = some q) ∧
    (∀ v : Option String, parseNumber v = parseValue v) := by
  refine ⟨rfl, rfl, rfl, ?_, ?_, ?_⟩
  · intro s h
    by_cases hs : s = "" ∨ s = "None" <;> simp [parseValue, hs, h]
  · intro s q h
    have hs : ¬(s = "" ∨ s = "None") := by
      rintro (rfl | rfl)
      · rw [show jsParseFloat "" = none from by with_unfolding_all decide] at h
        exact Option.noConfusion h
      · rw [show jsParseFloat "None" = none from by with_unfolding_all decide] at h
        exact Option.noConfusion h
    simp [parseValue, hs, h]
  · intro v
    cases v <;> rfl

/-- C3, witness: a non-numeric string parses to null and a negative
decimal string parses to exactly its value. -/
theorem C3_parseValue_witness :
    parseValue (some "abc") = none ∧ parseValue (some "-2.5") = some (-(5 / 2) : ℚ) :=
  ⟨C3_parseValue.2.2.2.1 "abc" (by with_unfolding_all decide),
   C3_parseValue.2.2.2.2.1 "-2.5" (-(5 / 2)) (by with_unfolding_all decide)⟩

/-- Report carrying only a fiscal date and a revenue string. -/
def mkRev (d rev : String) : Report :=
  { fiscalDateEnding := d, totalRevenue := some rev }

/-- The end-to-end scenario of claim C4: annual reports dated 2024 down
to 2019 with revenues 120, 110, 100, 90, 80, 70. -/
def scenarioStatement : IncomeStatement :=
  { symbol := "TEST",
    annualReports :=
      [ mkRev "2024-12-31" "120", mkRev "2023-12-31" "110", mkRev "2022-12-31" "100",
        mkRev "2021-12-31" "90", mkRev "2020-12-31" "80", mkRev "2019-12-31" "70" ],
    quarterlyReports := [] }

/-- Revenue of the report at a position of a report list, null past the
end, as the positional selection of claim C4 reads it. -/
def revenueAt (l : List Report) (i : ℕ) : Option ℚ :=
  (l[i]?).bind (fun r => parseValue r.totalRevenue)

/-- The truthy ternary the source wraps around calculateCAGR never
changes the result: calculateCAGR is itself null at a null or zero
start. -/
lemma truthy_cagr (a b : Option ℚ) (y : ℚ) :
    (if truthyNum a then calculateCAGR a b y else none) = calculateCAGR a b y := by
  cases a with
  | none => simp [truthyNum, calculateCAGR]
  | some v =>
      by_cases hv : v = 0
      · subst hv
        cases b <;> simp [truthyNum, calculateCAGR]
      · simp [truthyNum, hv]

/-- C4. Growth aggregation sorts the selected reports newest first and
selects purely by position: revenue year over year compares positions 0
and 1, the three-year CAGR runs from position 3 to position 0 over three
years, the five-year CAGR from position 5 over five years. On the
scenario statement dated 2024 down to 2019 with revenues 120 down to 70,
revenue year over year is exactly 100/11 (about 9.09) and the CAGR fields
equal the CAGR of 90 to 120 over 3 and of 70 to 120 over 5. -/
theorem C4_growthMetrics :
    (∀ (stmt : IncomeStatement) (period : Period),
        (calculateGrowthMetricsFromStatements stmt period).revenueYoY =
          calculateYoYGrowth (revenueAt (sortDesc (selectReports stmt period)) 0)
            (revenueAt (sortDesc (selectReports stmt period)) 1) ∧
        (calculateGrowthMetricsFromStatements stmt period).revenueCAGR3Y =
          calculateCAGR (revenueAt (sortDesc (selectReports stmt period)) 3)
            (revenueAt (sortDesc (selectReports stmt period)) 0) 3 ∧
        (calculateGrowthMetricsFromStatements stmt period).revenueCAGR5Y =
          calculateCAGR (revenueAt (sortDesc (selectReports stmt period)) 5)
            (revenueAt (sortDesc (selectReports stmt period)) 0) 5) ∧
    (calculateGrowthMetricsFromStatements scenarioStatement .annual).revenueYoY =
      some (100 / 11) ∧
    (calculateGrowthMetricsFromStatements scenarioStatement .annual).revenueCAGR3Y =
      calculateCAGR (some 90) (some 120) 3 ∧
    (calculateGrowthMetricsFromStatements scenarioStatement .annual).revenueCAGR5Y =
      calculateCAGR (some 70) (some 120) 5 := by
  refine ⟨?_, ?_, ?_, ?_⟩
  · intro stmt period
    by_cases h : (selectReports stmt period).isEmpty
    · rw [List.isEmpty_iff] at h
      simp [calculateGrowthMetricsFromStatements, h, sortDesc, sortDescBy, revenueAt,
        calculateYoYGrowth, calculateCAGR]
    · refine ⟨?_, ?_, ?_⟩ <;>
        simp only [calculateGrowthMetricsFromStatements, if_neg h, revenueAt] <;>
        first
          | rfl
          | exact truthy_cagr _ _ _
  · with_unfolding_all decide
  · with_unfolding_all decide
  · with_unfolding_all decide

/-- Asset turnover as the amended claim C5 states it. -/
def assetTurnoverSpec (revenue totalAssets : Option ℚ) : Option ℚ :=
  match revenue, totalAssets with
  | some r, some ta => if 0 < ta ∧ r ≠ 0 then some (r / ta) else none
  | _, _ => none

/-- Working-capital efficiency as the amended claim C5 states it. -/
def workingCapitalEfficiencySpec (revenue currentAssets currentLiabilities : Option ℚ) :
    Option ℚ :=
  match revenue, currentAssets, currentLiabilities with
  | some r, some ca, some cl =>
      if ca ≠ 0 ∧ cl ≠ 0 ∧ ca - cl ≠ 0 ∧ r ≠ 0 then some (r / (ca - cl)) else none
  | _, _, _ => none

/-- Efficiency metrics as the amended claim C5 states them, from the
nullable latest revenue, total assets and current figures. -/
def efficiencySpec (revenue totalAssets currentAssets currentLiabilities : Option ℚ) :
    EfficiencyMetrics :=
  { assetTurnover := assetTurnoverSpec revenue totalAssets,
    workingCapitalEfficiency :=
      workingCapitalEfficiencySpec revenue currentAssets currentLiabilities }

/-- Latest income report with revenue 5. -/
def effIncome : IncomeStatement :=
  { symbol := "T",
    annualReports := [ { fiscalDateEnding := "2024-12-31", totalRevenue := some "5" } ],
    quarterlyReports := [] }

/-- Latest income report with revenue 0. -/
def effIncomeZero : IncomeStatement :=
  { symbol := "T",
    annualReports := [ { fiscalDateEnding := "2024-12-31", totalRevenue := some "0" } ],
    quarterlyReports := [] }

/-- Latest balance report with current liabilities 0. -/
def effBalance : BalanceSheet :=
  { symbol := "T",
    annualReports :=
      [ { fiscalDateEnding := "2024-12-31", totalAssets := some "20",
          totalCurrentAssets := some "10", totalCurrentLiabilities := some "0" } ],
    quarterlyReports := [] }

/-- Latest balance report with only positive total assets. -/
def effBalanceB : BalanceSheet :=
  { symbol := "T",
    annualReports := [ { fiscalDateEnding := "2024-12-31", totalAssets := some "20" } ],
    quarterlyReports := [] }

/-- Latest balance report with current assets 0 and negative current
liabilities. -/
def effBalanceC : BalanceSheet :=
  { symbol := "T",
    annualReports :=
      [ { fiscalDateEnding := "2024-12-31", totalCurrentAssets := some "0",
          totalCurrentLiabilities := some "-5" } ],
    quarterlyReports := [] }

/-- C5, counterexample. The claim says working-capital efficiency equals
revenue over the difference of the current figures exactly when that
difference is non-zero, and asset turnover equals revenue over total
assets exactly when total assets are positive. The JavaScript truthiness
guards refute both: with current liabilities 0 the difference is 10, yet
the result is null; with revenue 0 and total assets 20 the claimed value
is 0, yet the result is null; with current assets 0 the difference is 5,
yet the result is null. -/
theorem C5_counterexample :
    (calculateEfficiencyMetrics effIncome effBalance Period.annual).workingCapitalEfficiency
        = none ∧
    ((10 : ℚ) - 0 ≠ 0) ∧
    (none : Option ℚ) ≠ some ((5 : ℚ) / (10 - 0)) ∧
    (calculateEfficiencyMetrics effIncomeZero effBalanceB Period.annual).assetTurnover = none ∧
    ((0 : ℚ) < 20) ∧
    (none : Option ℚ) ≠ some ((0 : ℚ) / 20) ∧
    (calculateEfficiencyMetrics effIncome effBalanceC Period.annual).workingCapitalEfficiency
        = none ∧
    ((0 : ℚ) - (-5) ≠ 0) ∧
    (none : Option ℚ) ≠ some ((5 : ℚ) / (0 - (-5))) := by
  with_unfolding_all decide

/-- C5, amended. For every statement pair and period, asset turnover is
revenue over total assets exactly when total assets are present and
positive and revenue is present and non-zero (null otherwise), and
working-capital efficiency is revenue over the difference of the current
figures exactly when both current figures are present and non-zero, the
difference is non-zero and revenue is present and non-zero (null
otherwise) — the two truthiness refinements forced by the
counterexample. -/
theorem C5_amended (incomeStatement : IncomeStatement) (balanceSheet : BalanceSheet)
    (period : Period) :
    calculateEfficiencyMetrics incomeStatement balanceSheet period =
      efficiencySpec
        (((selectReports incomeStatement period)[0]?).bind (fun r => parseValue r.totalRevenue))
        (((selectBalanceReports balanceSheet period)[0]?).bind (fun r => parseValue r.totalAssets))
        (((selectBalanceReports balanceSheet period)[0]?).bind
          (fun r => parseValue r.totalCurrentAssets))
        (((selectBalanceReports balanceSheet period)[0]?).bind
          (fun r => parseValue r.totalCurrentLiabilities)) := by
  cases hI : (selectReports incomeStatement period)[0]? with
  | none => simp [calculateEfficiencyMetrics, efficiencySpec, assetTurnoverSpec,
      workingCapitalEfficiencySpec, hI]
  | some latestIncome =>
      cases hB : (selectBalanceReports balanceSheet period)[0]? with
      | none =>
          simp only [calculateEfficiencyMetrics, efficiencySpec, hI, hB, Option.some_bind,
            Option.none_bind]
          cases parseValue latestIncome.totalRevenue <;> rfl
      | some latestBalance =>
          simp only [calculateEfficiencyMetrics, efficiencySpec, hI, hB, Option.some_bind,
            EfficiencyMetrics.mk.injEq]
          constructor
          · cases hta : parseValue latestBalance.totalAssets with
            | none => cases parseValue latestIncome.totalRevenue <;> rfl
            | some ta =>
                cases hr : parseValue latestIncome.totalRevenue with
                | none => rfl
                | some r =>
                    have hiff : (ta ≠ 0 ∧ 0 < ta ∧ r ≠ 0) ↔ (0 < ta ∧ r ≠ 0) :=
                      ⟨fun h => ⟨h.2.1, h.2.2⟩, fun h => ⟨ne_of_gt h.1, h.1, h.2⟩⟩
                    simp only [assetTurnoverSpec, hiff]
          · cases hca : parseValue latestBalance.totalCurrentAssets with
            | none => cases parseValue latestBalance.totalCurrentLiabilities <;>
                cases parseValue latestIncome.totalRevenue <;> rfl
            | some ca =>
                cases hcl : parseValue latestBalance.totalCurrentLiabilities with
                | none => cases parseValue latestIncome.totalRevenue <;> rfl
                | some cl =>
                    cases hr : parseValue latestIncome.totalRevenue with
                    | none =>
                        by_cases hcc : ca ≠ 0 ∧ cl ≠ 0 <;>
                          simp [workingCapitalEfficiencySpec, hcc]
                    | some r =>
                        rw [show workingCapitalEfficiencySpec (some r) (some ca) (some cl) =
                              (if ca ≠ 0 ∧ cl ≠ 0 ∧ ca - cl ≠ 0 ∧ r ≠ 0 then
                                some (r / (ca - cl)) else none) from rfl]
                        by_cases hcc : ca ≠ 0 ∧ cl ≠ 0
                        · have hiff : (ca - cl ≠ 0 ∧ r ≠ 0) ↔
                              (ca ≠ 0 ∧ cl ≠ 0 ∧ ca - cl ≠ 0 ∧ r ≠ 0) :=
                            ⟨fun h => ⟨hcc.1, hcc.2, h.1, h.2⟩, fun h => ⟨h.2.2.1, h.2.2.2⟩⟩
                          simp only [if_pos hcc]
                          exact if_congr hiff rfl rfl
                        · have hneg : ¬(ca ≠ 0 ∧ cl ≠ 0 ∧ ca - cl ≠ 0 ∧ r ≠ 0) := by
                            intro h
                            exact hcc ⟨h.1, h.2.1⟩
                          simp only [if_neg hcc, if_neg hneg]

/-- Free-cash-flow row policy as claim C6 states it: null operating cash
flow gives null; null capital expenditures with a present operating cash
flow gives the operating cash flow unreduced; otherwise the difference. -/
def fcfPolicy (ocf capex : Option ℚ) : Option ℚ :=
  match ocf with
  | none => none
  | some o =>
      match capex with
      | none => some o
      | some c => some (o - c)

/-- The source mapping function realizes the claimed row policy. -/
lemma fcfRow_policy (r : Report) :
    fcfRow r = { date := r.fiscalDateEnding,
                 value := fcfPolicy (parseValue r.operatingCashflow)
                            (parseValue r.capitalExpenditures) } := by
  unfold fcfRow fcfPolicy
  cases parseValue r.operatingCashflow <;> cases parseValue r.capitalExpenditures <;> rfl

/-- The concrete cash-flow scenario of claim C6, in ascending date order:
operating cash flow 100 with capex 40, null operating cash flow with
capex 10, operating cash flow 50 with absent capex. -/
def fcfCashFlow : CashFlow :=
  { symbol := "TEST",
    annualReports :=
      [ { fiscalDateEnding := "2020-12-31", operatingCashflow := some "100",
          capitalExpenditures := some "40" },
        { fiscalDateEnding := "2021-12-31", operatingCashflow := some "None",
          capitalExpenditures := some "10" },
        { fiscalDateEnding := "2022-12-31", operatingCashflow := some "50" } ],
    quarterlyReports := [] }

/-- C6. The free-cash-flow series sorts the selected reports ascending by
fiscal date and maps each row, in order, to the claimed policy value; on
the concrete ascending scenario with rows 100 minus 40, null operating
cash flow, and 50 with absent capex, the output values are 60, null and
50. -/
theorem C6_freeCashFlow :
    (∀ (cf : CashFlow) (period : Period),
        (calculateFreeCashFlow cf period).map (fun dv => dv.date) =
          (sortAsc (selectCashReports cf period)).map (fun r => r.fiscalDateEnding) ∧
        (∀ (i : ℕ) (r : Report), (sortAsc (selectCashReports cf period))[i]? = some r →
          (calculateFreeCashFlow cf period)[i]? =
            some { date := r.fiscalDateEnding,
                   value := fcfPolicy (parseValue r.operatingCashflow)
                              (parseValue r.capitalExpenditures) })) ∧
    calculateFreeCashFlow fcfCashFlow Period.annual =
      [ { date := "2020-12-31", value := some 60 },
        { date := "2021-12-31", value := none },
        { date := "2022-12-31", value := some 50 } ] := by
  constructor
  · intro cf period
    constructor
    · rw [calculateFreeCashFlow, List.map_map]
      have hfun : ((fun dv : DatedValue => dv.date) ∘ fcfRow) =
          fun r : Report => r.fiscalDateEnding := by
        funext r
        rw [Function.comp_apply, fcfRow_policy]
      rw [hfun]
    · intro i r hr
      rw [calculateFreeCashFlow, List.getElem?_map, hr]
      show some (fcfRow r) = _
      rw [fcfRow_policy]
  · with_unfolding_all decide

/-- C6, witness: the general positional conjunct applied at position 0 of
the concrete scenario. -/
theorem C6_freeCashFlow_witness :
    (calculateFreeCashFlow fcfCashFlow Period.annual)[0]? =
      some { date := "2020-12-31",
             value := fcfPolicy (parseValue (some "100")) (parseValue (some "40")) } :=
  (C6_freeCashFlow.1 fcfCashFlow Period.annual).2 0
    { fiscalDateEnding := "2020-12-31", operatingCashflow := some "100",
      capitalExpenditures := some "40" }
    (by with_unfolding_all decide)

/-- C7. A forecast with zero revenue growth projects exactly the base
revenue, and upside is null exactly at a null or zero current price and
otherwise the relative difference in percent. -/
theorem C7_forecast :
    (∀ inputs : ForecastInputs, inputs.revenueGrowth = 0 →
        (runForecast inputs).projectedRevenue = inputs.baseRevenue) ∧
    (∀ impliedPrice : ℚ, calculateUpside impliedPrice none = none) ∧
    (∀ impliedPrice : ℚ, calculateUpside impliedPrice (some 0) = none) ∧
    (∀ (impliedPrice c : ℚ), c ≠ 0 →
        calculateUpside impliedPrice (some c) = some ((impliedPrice - c) / c * 100)) := by
  refine ⟨?_, ?_, ?_, ?_⟩
  · intro inputs h
    show inputs.baseRevenue * (1 + inputs.revenueGrowth / 100) = inputs.baseRevenue
    rw [h]
    ring
  · intro impliedPrice
    rfl
  · intro impliedPrice
    simp [calculateUpside]
  · intro impliedPrice c hc
    simp [calculateUpside, hc]

/-- C7, witness: the zero-growth projection at a concrete input record
and the upside formula at implied price 10 against current price 5. -/
theorem C7_forecast_witness :
    (runForecast
        { revenueGrowth := 0, grossMargin := 50, operatingMargin := 30, netMargin := 20,
          taxRate := 25, peMultiple := 20, sharesOutstanding := 1000,
          baseRevenue := 5000 }).projectedRevenue = 5000 ∧
    calculateUpside 10 (some 5) = some ((10 - 5) / 5 * 100) :=
  ⟨C7_forecast.1 _ rfl, C7_forecast.2.2.2 10 5 (by norm_num)⟩

/-- C8. CAGR of 100 to 100 over three years is exactly zero; of 100 to
200 over one year exactly 100; a zero start or zero year count is null;
and whenever the power model yields no finite exact value the result is
null rather than propagated. -/
theorem C8_cagr :
    calculateCAGR (some 100) (some 100) 3 = some 0 ∧
    calculateCAGR (some 100) (some 200) 1 = some 100 ∧
    calculateCAGR (some 0) (some 100) 5 = none ∧
    (∀ x y : Option ℚ, calculateCAGR x y 0 = none) ∧
    (∀ s e y : ℚ, jsPow (e / s) (1 / y) = none →
        calculateCAGR (some s) (some e) y = none) := by
  refine ⟨?_, ?_, ?_, ?_, ?_⟩
  · with_unfolding_all decide
  · with_unfolding_all decide
  · with_unfolding_all decide
  · intro x y
    cases x <;> cases y <;> simp [calculateCAGR]
  · intro s e y h
    rw [one_div] at h
    by_cases hz : s = 0 ∨ y = 0
    · simp [calculateCAGR, hz]
    · simp [calculateCAGR, hz, h]

/-- C8, witness: a negative ratio under a square root is not finite and
comes back as null. -/
theorem C8_cagr_witness : calculateCAGR (some 100) (some (-100)) 2 = none :=
  C8_cagr.2.2.2.2 100 (-100) 2 (by with_unfolding_all decide)

/-- Overview carrying only a forward price-earnings ratio. -/
def onlyForwardOverview : CompanyOverview :=
  { symbol := "T", name := "T", forwardPE := some 15 }

/-- Income statement with no reports. -/
def emptyIncome : IncomeStatement :=
  { symbol := "T", annualReports := [], quarterlyReports := [] }

/-- A default with x not truthy falls to the default value. -/
lemma orDefault_of_not_truthy (x : Option ℚ) (d : ℚ) (h : truthyNum x = false) :
    orDefault x d = d := by
  cases x with
  | none => rfl
  | some v =>
      simp [truthyNum] at h
      simp [orDefault, h]

/-- A default with a present non-zero value keeps the value. -/
lemma orDefault_of_truthy_some (v d : ℚ) (hv : v ≠ 0) : orDefault (some v) d = v := by
  simp [orDefault, hv]

/-- C9, counterexample. The claim says the price-earnings multiple
defaults to the trailing or forward ratio of the overview and falls back
to 20 only when neither is available. With no trailing ratio but a
forward ratio of 15 present, the code still falls back to 20: the
forward ratio is never consulted. -/
theorem C9_counterexample :
    onlyForwardOverview.peRatio = none ∧
    onlyForwardOverview.trailingPE = none ∧
    onlyForwardOverview.forwardPE = some 15 ∧
    (getDefaultForecastInputs emptyIncome onlyForwardOverview).peMultiple = 20 ∧
    ((20 : ℚ) ≠ 15) := by
  with_unfolding_all decide

/-- C9, amended. The price-earnings multiple takes the peRatio field of
the overview when truthy, else the trailing ratio when truthy, else 20;
the forward ratio is never consulted (replacing it never changes the
result). The share count falls back to one billion when unknown, and the
tax rate is tax expense over pre-tax income times 100 with pre-tax income
positive, 25 otherwise. -/
theorem C9_amended (incomeStatement : IncomeStatement) (overview : CompanyOverview) :
    (truthyNum overview.peRatio = false → truthyNum overview.trailingPE = false →
        (getDefaultForecastInputs incomeStatement overview).peMultiple = 20) ∧
    (∀ v : ℚ, overview.peRatio = some v → v ≠ 0 →
        (getDefaultForecastInputs incomeStatement overview).peMultiple = v) ∧
    (∀ v : ℚ, truthyNum overview.peRatio = false → overview.trailingPE = some v → v ≠ 0 →
        (getDefaultForecastInputs incomeStatement overview).peMultiple = v) ∧
    (∀ x : Option ℚ,
        (getDefaultForecastInputs incomeStatement
            { overview with forwardPE := x }).peMultiple =
          (getDefaultForecastInputs incomeStatement overview).peMultiple) ∧
    (overview.sharesOutstanding = none →
        (getDefaultForecastInputs incomeStatement overview).sharesOutstanding = 1000000000) ∧
    (0 < orDefault (getLatestIncomeStatementValue incomeStatement
          (fun r => r.incomeBeforeTax) Period.annual) 0 →
        (getDefaultForecastInputs incomeStatement overview).taxRate =
          orDefault (getLatestIncomeStatementValue incomeStatement
              (fun r => r.incomeTaxExpense) Period.annual) 0 /
            orDefault (getLatestIncomeStatementValue incomeStatement
              (fun r => r.incomeBeforeTax) Period.annual) 0 * 100) ∧
    (orDefault (getLatestIncomeStatementValue incomeStatement
          (fun r => r.incomeBeforeTax) Period.annual) 0 ≤ 0 →
        (getDefaultForecastInputs incomeStatement overview).taxRate = 25) := by
  refine ⟨?_, ?_, ?_, ?_, ?_, ?_, ?_⟩
  · intro h1 h2
    show orDefault (orElseNum overview.peRatio overview.trailingPE) 20 = 20
    simp [orElseNum, h1]
    exact orDefault_of_not_truthy _ _ h2
  · intro v hv hvne
    show orDefault (orElseNum overview.peRatio overview.trailingPE) 20 = v
    simp [orElseNum, hv, truthyNum, hvne]
    exact orDefault_of_truthy_some v 20 hvne
  · intro v h1 hv hvne
    show orDefault (orElseNum overview.peRatio overview.trailingPE) 20 = v
    simp [orElseNum, h1, hv]
    exact orDefault_of_truthy_some v 20 hvne
  · intro x
    rfl
  · intro h
    show orDefault overview.sharesOutstanding 1000000000 = 1000000000
    rw [h]
    rfl
  · intro h
    show (if 0 < orDefault (getLatestIncomeStatementValue incomeStatement
            (fun r => r.incomeBeforeTax) Period.annual) 0 then
          orDefault (getLatestIncomeStatementValue incomeStatement
              (fun r => r.incomeTaxExpense) Period.annual) 0 /
            orDefault (getLatestIncomeStatementValue incomeStatement
              (fun r => r.incomeBeforeTax) Period.annual) 0 * 100
        else 25) = _
    rw [if_pos h]
  · intro h
    show (if 0 < orDefault (getLatestIncomeStatementValue incomeStatement
            (fun r => r.incomeBeforeTax) Period.annual) 0 then
          orDefault (getLatestIncomeStatementValue incomeStatement
              (fun r => r.incomeTaxExpense) Period.annual) 0 /
            orDefault (getLatestIncomeStatementValue incomeStatement
              (fun r => r.incomeBeforeTax) Period.annual) 0 * 100
        else 25) = 25
    rw [if_neg (not_lt.mpr h)]

/-- C9, witness for the amended theorem: with the forward-only overview
and an empty statement, the multiple falls back to 20 and, with no
pre-tax income, the tax rate falls back to 25. -/
theorem C9_amended_witness :
    (getDefaultForecastInputs emptyIncome onlyForwardOverview).peMultiple = 20 ∧
    (getDefaultForecastInputs emptyIncome onlyForwardOverview).taxRate = 25 :=
  ⟨(C9_amended emptyIncome onlyForwardOverview).1 rfl rfl,
   (C9_amended emptyIncome onlyForwardOverview).2.2.2.2.2.2
     (by with_unfolding_all decide)⟩

/-- C10. The profitability aggregation returns null return on equity and
return on assets for every statement and period, even though the
standalone helpers compute both from present non-zero inputs, as the
concrete evaluations show. -/
theorem C10_profitabilityRoeRoa :
    (∀ (stmt : IncomeStatement) (period : Period),
        (calculateProfitabilityMetrics stmt period).roe = none ∧
        (calculateProfitabilityMetrics stmt period).roa = none) ∧
    calculateROE (some 10) (some 50) = some 20 ∧
    calculateROA (some 10) (some 50) = some 20 := by
  refine ⟨?_, ?_, ?_⟩
  · intro stmt period
    cases h : (selectReports stmt period)[0]? <;>
      simp [calculateProfitabilityMetrics, h]
  · with_unfolding_all decide
  · with_unfolding_all decide

end StockResearch
